import Mathlib

/-!
# SparMate combo configuration

A shallow embedding of the two `Combos.h` headers of the SparMate sketch
(`SparMate/Combos.h` and `SparMate_hardware/Combos.h`) together with the combo
matching engine that the design document builds on top of them.

* The headers are static data: six move macros that take the address of a
  `Servo` object, eight timeout constants, `MAX_MOVES`, the `BLANK` sentinel and
  four `Servo* X_COMBOS[3][MAX_MOVES]` tables.
* A `Servo*` is embedded as `Option Servo`: `none` is `NULL`, `some s` is the
  address of the global object `s`.  Distinct global objects have distinct,
  non-null addresses, which is what `Option` over an enumeration gives.
* A `T[3][MAX_MOVES]` array initialiser is embedded as the list of its rows,
  each row the list of its entries, in the order written.
-/

set_option autoImplicit false

/-- The six `Servo` objects whose addresses the move macros take.  The headers
assume they are declared by the including sketch. -/
inductive Servo where
  | jab
  | cross
  | leftHook
  | rightHook
  | leftUppercut
  | rightUppercut
  deriving DecidableEq, Repr

/-- A value of C++ type `Servo*`: `none` is the null pointer. -/
abbrev ServoPtr := Option Servo

/-- The four difficulty levels, in the order the headers list them. -/
inductive Difficulty where
  | Easy
  | Normal
  | Advanced
  | Pro
  deriving DecidableEq, Repr

/-! ## `src/SparMate/Combos.h` -/

namespace SparMate

def JAB : ServoPtr := some Servo.jab
def CROSS : ServoPtr := some Servo.cross
def LEFTHOOK : ServoPtr := some Servo.leftHook
def RIGHTHOOK : ServoPtr := some Servo.rightHook
def LEFTUPPERCUT : ServoPtr := some Servo.leftUppercut
def RIGHTUPPERCUT : ServoPtr := some Servo.rightUppercut

def EASY_PUNCH_TIMEOUT : Int := 3000
def EASY_COMBO_TIMEOUT : Int := 5000

def NORMAL_PUNCH_TIMEOUT : Int := 2000
def NORMAL_COMBO_TIMEOUT : Int := 4000

def ADVANCED_PUNCH_TIMEOUT : Int := 800
def ADVANCED_COMBO_TIMEOUT : Int := 2500

def PRO_PUNCH_TIMEOUT : Int := 450
def PRO_COMBO_TIMEOUT : Int := 1250

/-- Maximum moves per combo. -/
def MAX_MOVES : Nat := 6

/-- Sentinel value indicating no valid move: `#define BLANK NULL`. -/
def BLANK : ServoPtr := none

def EASY_COMBOS : List (List ServoPtr) := [
  [ JAB,       CROSS,       LEFTHOOK,     BLANK, BLANK, BLANK ],
  [ JAB,       LEFTHOOK,    CROSS,        RIGHTHOOK, BLANK, BLANK ],
  [ JAB,       CROSS,       JAB,          LEFTHOOK,  CROSS, BLANK ]
]

def NORMAL_COMBOS : List (List ServoPtr) := [
  [ JAB,       CROSS,       LEFTHOOK,     BLANK, BLANK, BLANK ],
  [ JAB,       LEFTHOOK,    CROSS,        RIGHTHOOK, BLANK, BLANK ],
  [ JAB,       CROSS,       JAB,          LEFTHOOK,  CROSS, BLANK ]
]

def ADVANCED_COMBOS : List (List ServoPtr) := [
  [ JAB,       CROSS,       LEFTHOOK,     BLANK, BLANK, BLANK ],
  [ JAB,       LEFTHOOK,    CROSS,        RIGHTHOOK, BLANK, BLANK ],
  [ JAB,       CROSS,       JAB,          LEFTHOOK,  CROSS, BLANK ]
]

def PRO_COMBOS : List (List ServoPtr) := [
  [ JAB,       CROSS,       LEFTHOOK,     BLANK, BLANK, BLANK ],
  [ JAB,       LEFTHOOK,    CROSS,        RIGHTHOOK, BLANK, BLANK ],
  [ JAB,       CROSS,       JAB,          LEFTHOOK,  CROSS, BLANK ]
]

/-- The `X_PUNCH_TIMEOUT` constant of a difficulty. -/
def punchTimeout : Difficulty → Int
  | .Easy => EASY_PUNCH_TIMEOUT
  | .Normal => NORMAL_PUNCH_TIMEOUT
  | .Advanced => ADVANCED_PUNCH_TIMEOUT
  | .Pro => PRO_PUNCH_TIMEOUT

/-- The `X_COMBO_TIMEOUT` constant of a difficulty. -/
def comboTimeout : Difficulty → Int
  | .Easy => EASY_COMBO_TIMEOUT
  | .Normal => NORMAL_COMBO_TIMEOUT
  | .Advanced => ADVANCED_COMBO_TIMEOUT
  | .Pro => PRO_COMBO_TIMEOUT

/-- The `X_COMBOS` table of a difficulty. -/
def combosOf : Difficulty → List (List ServoPtr)
  | .Easy => EASY_COMBOS
  | .Normal => NORMAL_COMBOS
  | .Advanced => ADVANCED_COMBOS
  | .Pro => PRO_COMBOS

end SparMate

/-! ## `src/SparMate_hardware/Combos.h` -/

namespace SparMate_hardware

def JAB : ServoPtr := some Servo.jab
def CROSS : ServoPtr := some Servo.cross
def LEFTHOOK : ServoPtr := some Servo.leftHook
def RIGHTHOOK : ServoPtr := some Servo.rightHook
def LEFTUPPERCUT : ServoPtr := some Servo.leftUppercut
def RIGHTUPPERCUT : ServoPtr := some Servo.rightUppercut

def EASY_PUNCH_TIMEOUT : Int := 3000
def EASY_COMBO_TIMEOUT : Int := 5000

def NORMAL_PUNCH_TIMEOUT : Int := 2000
def NORMAL_COMBO_TIMEOUT : Int := 4000

def ADVANCED_PUNCH_TIMEOUT : Int := 800
def ADVANCED_COMBO_TIMEOUT : Int := 2500

def PRO_PUNCH_TIMEOUT : Int := 450
def PRO_COMBO_TIMEOUT : Int := 1250

def MAX_MOVES : Nat := 6
def BLANK : ServoPtr := none

def EASY_COMBOS : List (List ServoPtr) := [
  [ JAB,       CROSS,       LEFTHOOK,     BLANK, BLANK, BLANK ],
  [ JAB,       LEFTHOOK,    CROSS,        RIGHTHOOK, BLANK, BLANK ],
  [ JAB,       CROSS,       JAB,          LEFTHOOK,  CROSS, BLANK ]
]

def NORMAL_COMBOS : List (List ServoPtr) := [
  [ JAB,       CROSS,       LEFTHOOK,     BLANK, BLANK, BLANK ],
  [ JAB,       LEFTHOOK,    CROSS,        RIGHTHOOK, BLANK, BLANK ],
  [ JAB,       CROSS,       JAB,          LEFTHOOK,  CROSS, BLANK ]
]

def ADVANCED_COMBOS : List (List ServoPtr) := [
  [ JAB,       CROSS,       LEFTHOOK,     BLANK, BLANK, BLANK ],
  [ JAB,       LEFTHOOK,    CROSS,        RIGHTHOOK, BLANK, BLANK ],
  [ JAB,       CROSS,       JAB,          LEFTHOOK,  CROSS, BLANK ]
]

def PRO_COMBOS : List (List ServoPtr) := [
  [ JAB,       CROSS,       LEFTHOOK,     BLANK, BLANK, BLANK ],
  [ JAB,       LEFTHOOK,    CROSS,        RIGHTHOOK, BLANK, BLANK ],
  [ JAB,       CROSS,       JAB,          LEFTHOOK,  CROSS, BLANK ]
]

/-- The `X_PUNCH_TIMEOUT` constant of a difficulty. -/
def punchTimeout : Difficulty → Int
  | .Easy => EASY_PUNCH_TIMEOUT
  | .Normal => NORMAL_PUNCH_TIMEOUT
  | .Advanced => ADVANCED_PUNCH_TIMEOUT
  | .Pro => PRO_PUNCH_TIMEOUT

/-- The `X_COMBO_TIMEOUT` constant of a difficulty. -/
def comboTimeout : Difficulty → Int
  | .Easy => EASY_COMBO_TIMEOUT
  | .Normal => NORMAL_COMBO_TIMEOUT
  | .Advanced => ADVANCED_COMBO_TIMEOUT
  | .Pro => PRO_COMBO_TIMEOUT

/-- The `X_COMBOS` table of a difficulty. -/
def combosOf : Difficulty → List (List ServoPtr)
  | .Easy => EASY_COMBOS
  | .Normal => NORMAL_COMBOS
  | .Advanced => ADVANCED_COMBOS
  | .Pro => PRO_COMBOS

end SparMate_hardware

/-! ## Reading a table row as a combo -/

/-- The real (non-`BLANK`) moves of a table row, in the order they appear. -/
def comboMoves (row : List ServoPtr) : List Servo :=
  row.filterMap id

/-- The entries of a row up to, not including, its first `BLANK`. -/
def leadingMoves (row : List ServoPtr) : List ServoPtr :=
  row.takeWhile Option.isSome

/-- The length of a combo: the number of non-`BLANK` moves of its row. -/
def comboLength (row : List ServoPtr) : Nat :=
  (comboMoves row).length

/-- The length of the longest combo of a table (0 for an empty table). -/
def maxComboLength (table : List (List ServoPtr)) : Nat :=
  (table.map comboLength).foldl max 0

/-- A row is `k` real moves followed by `MAX_MOVES - k` `BLANK` entries. -/
def paddedRow (maxMoves : Nat) (blank : ServoPtr) (row : List ServoPtr) (k : Nat) : Prop :=
  ∃ moves : List Servo, moves.length = k ∧
    row = moves.map some ++ List.replicate (maxMoves - k) blank

/-! ## Combo catalog and combo matcher

The headers hold data only; the catalog loader and the matcher that consume
them are described by the design document (§3, §4.1, §4.2) and are modelled
here from its words.  Timestamps and durations are integers (milliseconds).
-/

/-- Modelled from the spec: a Move is an identifier of one strike type, a
closed enumeration; the matcher that consumes it is absent from the headers.
The six strike types are the six servo targets, so a Move is a `Servo` and
"no move" is a separate variant (`none` of `Option Servo`), never a Move. -/
abbrev Move := Servo

/-- Modelled from the spec: the Catalog of §4.1, which the headers do not
define: the ordered combos of one difficulty and its two timeout values. -/
structure Catalog where
  combos : List (List Move)
  punchTimeout : Int
  comboTimeout : Int
  deriving DecidableEq, Repr

/-- Modelled from the spec: the catalog that `load(difficulty)` constructs from
the static definitions of `SparMate/Combos.h`, before validation; the loader is
absent from the headers.  Each table row contributes its non-`BLANK` moves. -/
def staticCatalog (d : Difficulty) : Catalog where
  combos := (SparMate.combosOf d).map comboMoves
  punchTimeout := SparMate.punchTimeout d
  comboTimeout := SparMate.comboTimeout d

/-- Modelled from the spec: the error taxonomy of catalog loading (§7), absent
from the headers. -/
inductive CatalogError where
  | InvalidComboDefinition
  deriving DecidableEq, Repr

/-- Modelled from the spec: the combo-length condition of `load` (absent from
the headers): no combo has length 0 or more than `MAX_MOVES`. -/
def comboLengthsOk (maxMoves : Nat) (cat : Catalog) : Bool :=
  cat.combos.all (fun c => decide (1 ≤ c.length) && decide (c.length ≤ maxMoves))

/-- Modelled from the spec: the basic timeout conditions of `load` (absent from
the headers): it fails if `punchTimeout` or `comboTimeout` is `≤ 0`, or if
`comboTimeout < punchTimeout`. -/
def basicTimeoutsOk (cat : Catalog) : Bool :=
  !(decide (cat.punchTimeout ≤ 0) || decide (cat.comboTimeout ≤ 0)
    || decide (cat.comboTimeout < cat.punchTimeout))

/-- Modelled from the spec: the "true constraint" that `load` (absent from the
headers) validates: `comboTimeout ≥ punchTimeout × (maxComboLength − 1)`. -/
def longestComboCovered (cat : Catalog) : Bool :=
  decide (cat.comboTimeout ≥
    cat.punchTimeout * ((((cat.combos.map List.length).foldl max 0 : Nat) : Int) - 1))

/-- Modelled from the spec: `load(difficulty) -> Catalog` of §4.1, absent from
the headers: build the catalog from the static definitions and fail with
`InvalidComboDefinition` when one of the validated conditions is violated. -/
def load (d : Difficulty) : Except CatalogError Catalog :=
  let cat := staticCatalog d
  if !comboLengthsOk SparMate.MAX_MOVES cat then .error .InvalidComboDefinition
  else if !basicTimeoutsOk cat then .error .InvalidComboDefinition
  else if !longestComboCovered cat then .error .InvalidComboDefinition
  else .ok cat

/-- Modelled from the spec: why an attempt was broken (§7); the matcher is
absent from the headers. -/
inductive BreakReason where
  | WrongMove
  | Timeout
  deriving DecidableEq, Repr

/-- Modelled from the spec: the classification of one event (§4.2), absent from
the headers.  `Progressing` carries the live candidate count (step 5).
`InvalidMove` has no constructor: a `Move` is a closed enumeration, so a value
outside it cannot be passed. -/
inductive MatchResult where
  | NoMatch
  | Progressing (candidates : Nat)
  | ComboCompleted (id : Nat)
  | ComboBroken (reason : BreakReason)
  deriving DecidableEq, Repr

/-- Modelled from the spec: the composite result that §4.2 step 3 recommends
for `onMove` (absent from the headers): `terminated` tells whether the previous
attempt was broken by this event and why, `started` classifies the event in the
attempt that is live after it. -/
structure MoveOutcome where
  terminated : Option BreakReason
  started : MatchResult
  deriving DecidableEq, Repr

/-- Modelled from the spec: one live candidate of a MatchAttempt (§3), absent
from the headers: a combo index and the count of moves matched into it. -/
structure Candidate where
  index : Nat
  matchedCount : Nat
  deriving DecidableEq, Repr

/-- Modelled from the spec: the MatchAttempt of §3, absent from the headers:
the live candidates (in ascending catalog index), the timestamp of the first
move and the timestamp of the most recent accepted move. -/
structure MatchAttempt where
  candidates : List Candidate
  firstMoveTime : Int
  lastMoveTime : Int
  deriving DecidableEq, Repr

/-- Modelled from the spec: the matcher state machine of §4.2, absent from the
headers: `Idle`, or `Matching` with the single current attempt. -/
inductive Matcher where
  | Idle
  | Matching (attempt : MatchAttempt)
  deriving DecidableEq, Repr

/-- Modelled from the spec: the move sequence of the combo at a catalog index
(the `combos()` accessor of §4.1, absent from the headers). -/
def Catalog.comboAt (cat : Catalog) (i : Nat) : List Move :=
  cat.combos.getD i []

/-- Modelled from the spec: a candidate is complete when its combo's length
equals its matched count (§4.2 step 4); the matcher is absent from the
headers. -/
def Catalog.completes (cat : Catalog) (k : Candidate) : Bool :=
  (cat.comboAt k.index).length == k.matchedCount

/-- Modelled from the spec: the seeding of §4.2 step 1, absent from the
headers: every combo of the catalog whose first move equals `move`, each with
matched count 1, in catalog order. -/
def seedCandidates (cat : Catalog) (move : Move) : List Candidate :=
  (cat.combos.enum.filter (fun p => p.2.head? == some move)).map
    (fun p => { index := p.1, matchedCount := 1 })

/-- Modelled from the spec: §4.2 step 1, absent from the headers: start a new
attempt from `move`.  An empty seed stays Idle with `NoMatch`; a candidate of
length 1 completes at once (lowest index first); otherwise the matcher is
Matching with both timestamps set to `timestampMs`. -/
def seed (cat : Catalog) (move : Move) (timestampMs : Int) : Matcher × MatchResult :=
  let cands := seedCandidates cat move
  if cands.isEmpty then (.Idle, .NoMatch)
  else
    match cands.find? cat.completes with
    | some winner => (.Idle, .ComboCompleted winner.index)
    | none =>
      (.Matching { candidates := cands, firstMoveTime := timestampMs,
                   lastMoveTime := timestampMs },
       .Progressing cands.length)

/-- Modelled from the spec: the timeout test of `tick` (§4.2), absent from the
headers: `timestampMs − lastMoveTime > punchTimeout` or
`timestampMs − firstMoveTime > comboTimeout`. -/
def timedOut (cat : Catalog) (a : MatchAttempt) (timestampMs : Int) : Bool :=
  decide (timestampMs - a.lastMoveTime > cat.punchTimeout)
    || decide (timestampMs - a.firstMoveTime > cat.comboTimeout)

/-- Modelled from the spec: `onMove(move, timestampMs)` of §4.2, absent from
the headers.  Idle: seed (step 1).  Matching: an elapsed timeout breaks the
attempt with `Timeout` and reseeds from this move (step 2); otherwise the
candidates are filtered on the move at position `matchedCount`; an empty filter
breaks with `WrongMove` and reseeds (step 3); survivors advance and the lowest
completed index wins and resets to Idle (step 4); else `Progressing` (step 5). -/
def onMove (cat : Catalog) (s : Matcher) (move : Move) (timestampMs : Int) :
    Matcher × MoveOutcome :=
  match s with
  | .Idle =>
    let r := seed cat move timestampMs
    (r.1, { terminated := none, started := r.2 })
  | .Matching a =>
    if timedOut cat a timestampMs then
      let r := seed cat move timestampMs
      (r.1, { terminated := some .Timeout, started := r.2 })
    else
      let survivors := a.candidates.filter
        (fun k => (cat.comboAt k.index)[k.matchedCount]? == some move)
      if survivors.isEmpty then
        let r := seed cat move timestampMs
        (r.1, { terminated := some .WrongMove, started := r.2 })
      else
        let advanced := survivors.map
          (fun k => { index := k.index, matchedCount := k.matchedCount + 1 : Candidate })
        match advanced.find? cat.completes with
        | some winner => (.Idle, { terminated := none, started := .ComboCompleted winner.index })
        | none =>
          (.Matching { candidates := advanced, firstMoveTime := a.firstMoveTime,
                       lastMoveTime := timestampMs },
           { terminated := none, started := .Progressing advanced.length })

/-- Modelled from the spec: `tick(timestampMs)` of §4.2, absent from the
headers: if Matching and a timeout has elapsed, the result is
`ComboBroken(Timeout)` and the matcher is Idle; otherwise nothing happens
(no result, state unchanged). -/
def tick (cat : Catalog) (s : Matcher) (timestampMs : Int) : Matcher × Option MatchResult :=
  match s with
  | .Idle => (.Idle, none)
  | .Matching a =>
    if timedOut cat a timestampMs then (.Idle, some (.ComboBroken .Timeout))
    else (.Matching a, none)

/-- Modelled from the spec: feeding the matcher a sequence of move events by
successive `onMove` calls (§8), collecting the outcome of each call; the
matcher is absent from the headers. -/
def feed (cat : Catalog) : Matcher → List (Move × Int) → Matcher × List MoveOutcome
  | s, [] => (s, [])
  | s, (move, timestampMs) :: rest =>
    let r := onMove cat s move timestampMs
    let rs := feed cat r.1 rest
    (rs.1, r.2 :: rs.2)

/-- An outcome that is a plain `Progressing`: no attempt was broken and the
event advanced the live attempt. -/
def MoveOutcome.isProgressing (o : MoveOutcome) : Prop :=
  o.terminated = none ∧ ∃ n, o.started = .Progressing n

/-- Timestamps `ts` are paced for a catalog: each is at or after the previous
one and at most `punchTimeout` after it, and the last is at most `comboTimeout`
after the first. -/
def paced (cat : Catalog) (ts : List Int) : Prop :=
  ts.Chain' (fun a b => a ≤ b ∧ b - a ≤ cat.punchTimeout) ∧
    ∀ a ∈ ts.head?, ∀ b ∈ ts.getLast?, b - a ≤ cat.comboTimeout

/-! ## The static definitions -/

/-- C2: the (punchTimeout, comboTimeout) pairs defined by both headers are
exactly Easy (3000, 5000), Normal (2000, 4000), Advanced (800, 2500) and
Pro (450, 1250), and both values strictly decrease along Easy, Normal,
Advanced, Pro. -/
theorem timeouts_values_and_strictly_tightening :
    ((SparMate.punchTimeout .Easy, SparMate.comboTimeout .Easy) = (3000, 5000) ∧
     (SparMate.punchTimeout .Normal, SparMate.comboTimeout .Normal) = (2000, 4000) ∧
     (SparMate.punchTimeout .Advanced, SparMate.comboTimeout .Advanced) = (800, 2500) ∧
     (SparMate.punchTimeout .Pro, SparMate.comboTimeout .Pro) = (450, 1250)) ∧
    ((SparMate_hardware.punchTimeout .Easy, SparMate_hardware.comboTimeout .Easy)
        = (3000, 5000) ∧
     (SparMate_hardware.punchTimeout .Normal, SparMate_hardware.comboTimeout .Normal)
        = (2000, 4000) ∧
     (SparMate_hardware.punchTimeout .Advanced, SparMate_hardware.comboTimeout .Advanced)
        = (800, 2500) ∧
     (SparMate_hardware.punchTimeout .Pro, SparMate_hardware.comboTimeout .Pro)
        = (450, 1250)) ∧
    (SparMate.punchTimeout .Normal < SparMate.punchTimeout .Easy ∧
     SparMate.punchTimeout .Advanced < SparMate.punchTimeout .Normal ∧
     SparMate.punchTimeout .Pro < SparMate.punchTimeout .Advanced) ∧
    (SparMate.comboTimeout .Normal < SparMate.comboTimeout .Easy ∧
     SparMate.comboTimeout .Advanced < SparMate.comboTimeout .Normal ∧
     SparMate.comboTimeout .Pro < SparMate.comboTimeout .Advanced) := by
  decide

/-- C3: every row of every difficulty's table is `k` real moves followed by
`MAX_MOVES - k` `BLANK` entries with `1 ≤ k ≤ MAX_MOVES = 6`; so no row is
empty, no real move follows a `BLANK`, and `k` is the combo's length. -/
theorem rows_are_moves_then_blank_padding (d : Difficulty) :
    SparMate.MAX_MOVES = 6 ∧
    ∀ row ∈ SparMate.combosOf d,
      ∃ k, 1 ≤ k ∧ k ≤ SparMate.MAX_MOVES ∧
        paddedRow SparMate.MAX_MOVES SparMate.BLANK row k ∧
        comboLength row = k ∧ row.length = SparMate.MAX_MOVES := by
  refine ⟨rfl, ?_⟩
  intro row hrow
  have hmem : row ∈ SparMate.EASY_COMBOS := by
    cases d <;> exact hrow
  simp only [SparMate.EASY_COMBOS, List.mem_cons, List.mem_singleton, List.not_mem_nil,
    or_false] at hmem
  rcases hmem with rfl | rfl | rfl
  · exact ⟨3, by decide, by decide, ⟨[.jab, .cross, .leftHook], rfl, rfl⟩, rfl, rfl⟩
  · exact ⟨4, by decide, by decide, ⟨[.jab, .leftHook, .cross, .rightHook], rfl, rfl⟩, rfl, rfl⟩
  · exact ⟨5, by decide, by decide,
      ⟨[.jab, .cross, .jab, .leftHook, .cross], rfl, rfl⟩, rfl, rfl⟩

/-- C4 (as stated, refuted): on Easy the longest combo has 5 moves, so the
constraint asks for `comboTimeout ≥ 3000 × 4 = 12000`, but `EASY_COMBO_TIMEOUT`
is 5000. -/
theorem easy_combo_timeout_below_longest_combo_bound :
    maxComboLength SparMate.EASY_COMBOS = 5 ∧
    SparMate.EASY_PUNCH_TIMEOUT * ((maxComboLength SparMate.EASY_COMBOS : Int) - 1) = 12000 ∧
    SparMate.EASY_COMBO_TIMEOUT = 5000 ∧
    ¬ (SparMate.comboTimeout .Easy ≥
        SparMate.punchTimeout .Easy *
          ((maxComboLength (SparMate.combosOf .Easy) : Int) - 1)) := by
  decide

/-- C4 (amended): for every difficulty the longest combo has 5 moves, the
defined comboTimeout is at least punchTimeout, and it is strictly less than
`punchTimeout × (maxComboLength − 1)`. -/
theorem combo_timeout_between_punch_and_longest_bound (d : Difficulty) :
    maxComboLength (SparMate.combosOf d) = 5 ∧
    SparMate.comboTimeout d ≥ SparMate.punchTimeout d ∧
    SparMate.comboTimeout d <
      SparMate.punchTimeout d * ((maxComboLength (SparMate.combosOf d) : Int) - 1) := by
  cases d <;> decide

/-- C5: for every difficulty the static definitions have punchTimeout > 0,
comboTimeout > 0 and comboTimeout ≥ punchTimeout, so the basic timeout
conditions of `load` hold on them. -/
theorem basic_timeout_checks_pass (d : Difficulty) :
    0 < SparMate.punchTimeout d ∧ 0 < SparMate.comboTimeout d ∧
    SparMate.comboTimeout d ≥ SparMate.punchTimeout d ∧
    basicTimeoutsOk (staticCatalog d) = true := by
  cases d <;> decide

/-- On the static definitions the modelled `load` passes the combo-length and
basic timeout conditions and is stopped by the longest-combo constraint, for
every difficulty. -/
theorem load_static_definitions (d : Difficulty) :
    comboLengthsOk SparMate.MAX_MOVES (staticCatalog d) = true ∧
    longestComboCovered (staticCatalog d) = false ∧
    load d = .error .InvalidComboDefinition := by
  cases d <;> exact ⟨by decide, by decide, rfl⟩

/-- C8: the four difficulty tables are entry-for-entry identical, each with
3 rows of 6 entries. -/
theorem difficulty_tables_identical :
    SparMate.EASY_COMBOS = SparMate.NORMAL_COMBOS ∧
    SparMate.NORMAL_COMBOS = SparMate.ADVANCED_COMBOS ∧
    SparMate.ADVANCED_COMBOS = SparMate.PRO_COMBOS ∧
    SparMate.EASY_COMBOS.length = 3 ∧
    (∀ row ∈ SparMate.EASY_COMBOS, row.length = 6) ∧
    (∀ d e : Difficulty, SparMate.combosOf d = SparMate.combosOf e) := by
  refine ⟨rfl, rfl, rfl, rfl, by decide, ?_⟩
  intro d e
  cases d <;> cases e <;> rfl

/-- C10: the two headers define the same configuration: the same `MAX_MOVES`,
the same eight timeout constants, and entry-for-entry the same four tables. -/
theorem headers_define_same_configuration :
    SparMate.MAX_MOVES = SparMate_hardware.MAX_MOVES ∧
    (SparMate.EASY_PUNCH_TIMEOUT = SparMate_hardware.EASY_PUNCH_TIMEOUT ∧
     SparMate.EASY_COMBO_TIMEOUT = SparMate_hardware.EASY_COMBO_TIMEOUT ∧
     SparMate.NORMAL_PUNCH_TIMEOUT = SparMate_hardware.NORMAL_PUNCH_TIMEOUT ∧
     SparMate.NORMAL_COMBO_TIMEOUT = SparMate_hardware.NORMAL_COMBO_TIMEOUT ∧
     SparMate.ADVANCED_PUNCH_TIMEOUT = SparMate_hardware.ADVANCED_PUNCH_TIMEOUT ∧
     SparMate.ADVANCED_COMBO_TIMEOUT = SparMate_hardware.ADVANCED_COMBO_TIMEOUT ∧
     SparMate.PRO_PUNCH_TIMEOUT = SparMate_hardware.PRO_PUNCH_TIMEOUT ∧
     SparMate.PRO_COMBO_TIMEOUT = SparMate_hardware.PRO_COMBO_TIMEOUT) ∧
    (SparMate.EASY_COMBOS = SparMate_hardware.EASY_COMBOS ∧
     SparMate.NORMAL_COMBOS = SparMate_hardware.NORMAL_COMBOS ∧
     SparMate.ADVANCED_COMBOS = SparMate_hardware.ADVANCED_COMBOS ∧
     SparMate.PRO_COMBOS = SparMate_hardware.PRO_COMBOS) := by
  decide

/-- C9: within each difficulty's table, the move sequence of a combo (the
entries before its first `BLANK`, equally its non-`BLANK` moves) is never a
leading segment of the move sequence of a combo at another index; in particular
the combos are pairwise distinct. -/
theorem no_combo_begins_another (d : Difficulty) (i j : Nat) (a b : List ServoPtr) :
    i ≠ j → (SparMate.combosOf d)[i]? = some a → (SparMate.combosOf d)[j]? = some b →
      ¬ (leadingMoves a <+: leadingMoves b) ∧ ¬ (comboMoves a <+: comboMoves b) ∧
      comboMoves a ≠ comboMoves b ∧ leadingMoves a = (comboMoves a).map some := by
  intro hij ha hb
  have htab : SparMate.combosOf d = SparMate.EASY_COMBOS := by cases d <;> rfl
  rw [htab] at ha hb
  rcases i with _ | _ | _ | i <;> rcases j with _ | _ | _ | j <;>
    simp [SparMate.EASY_COMBOS] at ha hb hij <;>
    subst ha <;> subst hb <;> decide

/-- Witness for C9 on Easy: the 3-move combo at index 0 against the 5-move
combo at index 2, which share their first two moves. -/
theorem no_combo_begins_another_witness :
    ¬ (leadingMoves [SparMate.JAB, SparMate.CROSS, SparMate.LEFTHOOK,
          SparMate.BLANK, SparMate.BLANK, SparMate.BLANK] <+:
        leadingMoves [SparMate.JAB, SparMate.CROSS, SparMate.JAB,
          SparMate.LEFTHOOK, SparMate.CROSS, SparMate.BLANK]) :=
  (no_combo_begins_another .Easy 0 2 _ _ (by decide) rfl rfl).1

/-! ## The matcher on the static definitions -/

/-- The combos of every difficulty's catalog, written out. -/
theorem staticCatalog_eq (d : Difficulty) :
    staticCatalog d =
      { combos := [[.jab, .cross, .leftHook], [.jab, .leftHook, .cross, .rightHook],
          [.jab, .cross, .jab, .leftHook, .cross]],
        punchTimeout := SparMate.punchTimeout d,
        comboTimeout := SparMate.comboTimeout d } := by
  cases d <;> rfl

/-- C6: for every catalog and every Matching state, `tick(t)` with
`t − lastMoveTime > punchTimeout` returns `ComboBroken(Timeout)` and leaves the
matcher Idle; and on Easy, `onMove(JAB, 0)` followed by `tick(3500)` yields
`ComboBroken(Timeout)`. -/
theorem tick_after_punch_timeout_breaks :
    (∀ (cat : Catalog) (a : MatchAttempt) (t : Int),
      t - a.lastMoveTime > cat.punchTimeout →
        tick cat (.Matching a) t = (.Idle, some (.ComboBroken .Timeout))) ∧
    (staticCatalog .Easy).punchTimeout = 3000 ∧
    (onMove (staticCatalog .Easy) .Idle .jab 0).2 =
      { terminated := none, started := .Progressing 3 } ∧
    tick (staticCatalog .Easy) (onMove (staticCatalog .Easy) .Idle .jab 0).1 3500 =
      (.Idle, some (.ComboBroken .Timeout)) := by
  refine ⟨?_, by decide, by decide, by decide⟩
  intro cat a t h
  simp [tick, timedOut, h]

/-- Witness for C6: Normal difficulty, an attempt whose last accepted move was
at 1000 ms, ticked at 3001 ms (2001 > 2000). -/
theorem tick_after_punch_timeout_breaks_witness :
    tick (staticCatalog .Normal)
      (.Matching { candidates := [⟨0, 2⟩, ⟨2, 2⟩], firstMoveTime := 0, lastMoveTime := 1000 })
      3001 = (.Idle, some (.ComboBroken .Timeout)) :=
  tick_after_punch_timeout_breaks.1 (staticCatalog .Normal)
    { candidates := [⟨0, 2⟩, ⟨2, 2⟩], firstMoveTime := 0, lastMoveTime := 1000 } 3001
    (by decide)

/-- C7: in every difficulty's table every combo's first move is `JAB`, none
starts with `CROSS`; so from Idle `onMove(CROSS, 0)` seeds an empty candidate
set, returns `NoMatch` and leaves the matcher Idle. -/
theorem cross_from_idle_is_no_match (d : Difficulty) :
    (∀ row ∈ SparMate.combosOf d, row.head? = some SparMate.JAB) ∧
    (∀ row ∈ SparMate.combosOf d, row.head? ≠ some SparMate.CROSS) ∧
    (∀ c ∈ (staticCatalog d).combos, c.head? = some Servo.jab) ∧
    seedCandidates (staticCatalog d) .cross = [] ∧
    onMove (staticCatalog d) .Idle .cross 0 =
      (.Idle, { terminated := none, started := .NoMatch }) := by
  cases d <;> decide

/-- Why the timestamps are taken in order: on Easy, for the 5-move combo, the
timestamps 0, 3000, 6000, 5500, 5000 have every difference to the previous one
at most punchTimeout and the last at most comboTimeout after the first, but the
third runs backwards afterwards and is 6000 > comboTimeout after the first, so
the attempt is broken at the third move. -/
theorem backwards_timestamps_time_out :
    (feed (staticCatalog .Easy) .Idle
      [(.jab, 0), (.cross, 3000), (.jab, 6000), (.leftHook, 5500), (.cross, 5000)]).2 =
      [⟨none, .Progressing 3⟩, ⟨none, .Progressing 2⟩, ⟨some .Timeout, .Progressing 3⟩,
       ⟨none, .Progressing 1⟩, ⟨none, .Progressing 1⟩] := by
  decide

/-- C1: for every difficulty and every combo of its table (the row at index
`i`), feeding the matcher, starting Idle, exactly the row's non-`BLANK` moves in
order, with each timestamp at or after the previous one and at most
punchTimeout after it, and the last at most comboTimeout after the first, gives
`Progressing` for every move except the last and `ComboCompleted i` on the last
(and the matcher is Idle again). -/
theorem listed_combo_completes (d : Difficulty) (i : Nat) (row : List ServoPtr)
    (ts : List Int)
    (hrow : (SparMate.combosOf d)[i]? = some row)
    (hlen : ts.length = (comboMoves row).length)
    (hpaced : paced (staticCatalog d) ts) :
    ∃ pre : List MoveOutcome,
      feed (staticCatalog d) .Idle ((comboMoves row).zip ts) =
        (.Idle, pre ++ [{ terminated := none, started := .ComboCompleted i }]) ∧
      pre.length = (comboMoves row).length - 1 ∧
      ∀ o ∈ pre, o.isProgressing := by
  have htab : SparMate.combosOf d = SparMate.EASY_COMBOS := by cases d <;> rfl
  rw [htab] at hrow
  rw [staticCatalog_eq] at hpaced ⊢
  generalize SparMate.punchTimeout d = p at hpaced ⊢
  generalize SparMate.comboTimeout d = c at hpaced ⊢
  obtain ⟨hchain, hspan⟩ := hpaced
  rcases i with _ | _ | _ | i
  · simp [SparMate.EASY_COMBOS] at hrow
    subst hrow
    obtain ⟨t0, t1, t2, rfl⟩ : ∃ t0 t1 t2, ts = [t0, t1, t2] := by
      match ts, hlen with
      | [t0, t1, t2], _ => exact ⟨t0, t1, t2, rfl⟩
    simp at hchain hspan
    have a1 : ¬ (t1 - t0 > p) := by omega
    have a2 : ¬ (t1 - t0 > c) := by omega
    have a3 : ¬ (t2 - t1 > p) := by omega
    have a4 : ¬ (t2 - t0 > c) := by omega
    refine ⟨[⟨none, .Progressing 3⟩, ⟨none, .Progressing 2⟩], ?_, rfl, ?_⟩
    · simp [comboMoves, SparMate.JAB, SparMate.CROSS, SparMate.LEFTHOOK, SparMate.BLANK,
        feed, onMove, timedOut, seed, seedCandidates, Catalog.completes, Catalog.comboAt,
        a1, a2, a3, a4, List.enum, List.enumFrom]
    · simp [MoveOutcome.isProgressing]
  · simp [SparMate.EASY_COMBOS] at hrow
    subst hrow
    obtain ⟨t0, t1, t2, t3, rfl⟩ : ∃ t0 t1 t2 t3, ts = [t0, t1, t2, t3] := by
      match ts, hlen with
      | [t0, t1, t2, t3], _ => exact ⟨t0, t1, t2, t3, rfl⟩
    simp at hchain hspan
    have a1 : ¬ (t1 - t0 > p) := by omega
    have a2 : ¬ (t1 - t0 > c) := by omega
    have a3 : ¬ (t2 - t1 > p) := by omega
    have a4 : ¬ (t2 - t0 > c) := by omega
    have a5 : ¬ (t3 - t2 > p) := by omega
    have a6 : ¬ (t3 - t0 > c) := by omega
    refine ⟨[⟨none, .Progressing 3⟩, ⟨none, .Progressing 1⟩, ⟨none, .Progressing 1⟩],
      ?_, rfl, ?_⟩
    · simp [comboMoves, SparMate.JAB, SparMate.CROSS, SparMate.LEFTHOOK, SparMate.RIGHTHOOK,
        SparMate.BLANK, feed, onMove, timedOut, seed, seedCandidates, Catalog.completes,
        Catalog.comboAt, a1, a2, a3, a4, a5, a6, List.enum, List.enumFrom]
    · simp [MoveOutcome.isProgressing]
  · simp [SparMate.EASY_COMBOS] at hrow
    subst hrow
    obtain ⟨t0, t1, t2, t3, t4, rfl⟩ : ∃ t0 t1 t2 t3 t4, ts = [t0, t1, t2, t3, t4] := by
      match ts, hlen with
      | [t0, t1, t2, t3, t4], _ => exact ⟨t0, t1, t2, t3, t4, rfl⟩
    simp at hchain hspan
    have a1 : ¬ (t1 - t0 > p) := by omega
    have a2 : ¬ (t1 - t0 > c) := by omega
    have a3 : ¬ (t2 - t1 > p) := by omega
    have a4 : ¬ (t2 - t0 > c) := by omega
    have a5 : ¬ (t3 - t2 > p) := by omega
    have a6 : ¬ (t3 - t0 > c) := by omega
    have a7 : ¬ (t4 - t3 > p) := by omega
    have a8 : ¬ (t4 - t0 > c) := by omega
    refine ⟨[⟨none, .Progressing 3⟩, ⟨none, .Progressing 2⟩, ⟨none, .Progressing 1⟩,
      ⟨none, .Progressing 1⟩], ?_, rfl, ?_⟩
    · simp [comboMoves, SparMate.JAB, SparMate.CROSS, SparMate.LEFTHOOK, SparMate.BLANK,
        feed, onMove, timedOut, seed, seedCandidates, Catalog.completes, Catalog.comboAt,
        a1, a2, a3, a4, a5, a6, a7, a8, List.enum, List.enumFrom]
    · simp [MoveOutcome.isProgressing]
  · simp [SparMate.EASY_COMBOS] at hrow

/-- Witness for C1, the Easy scenario: combo 0 = [JAB, CROSS, LEFTHOOK] struck
at 0, 1000 and 2000 ms. -/
theorem listed_combo_completes_witness :
    paced (staticCatalog .Easy) [0, 1000, 2000] ∧
    ∃ pre : List MoveOutcome,
      feed (staticCatalog .Easy) .Idle [(.jab, 0), (.cross, 1000), (.leftHook, 2000)] =
        (.Idle, pre ++ [{ terminated := none, started := .ComboCompleted 0 }]) ∧
      pre.length = 2 ∧ ∀ o ∈ pre, o.isProgressing :=
  have hp : paced (staticCatalog .Easy) [0, 1000, 2000] := by
    simp [paced, staticCatalog, SparMate.punchTimeout, SparMate.comboTimeout,
      SparMate.EASY_PUNCH_TIMEOUT, SparMate.EASY_COMBO_TIMEOUT]
  ⟨hp, listed_combo_completes .Easy 0
    [SparMate.JAB, SparMate.CROSS, SparMate.LEFTHOOK, SparMate.BLANK, SparMate.BLANK,
      SparMate.BLANK]
    [0, 1000, 2000] rfl rfl hp⟩
